import Mathlib

/-!
Verification of the payment settlement and payout workflow of the
LocalServiceProviderBackend repository.

The controllers are embedded as pure functions over an explicit database
state.  Each handler takes an environment (request body, authenticated
user, the outcome of remote gateway calls, and the keyed digest function
used for signature verification) and the current database documents, and
returns the handler result together with the database state after the
call and a flag recording whether the remote payment gateway was invoked.
-/

namespace LSPB

/-- An application-level error carrying a message and an HTTP status code,
mirroring the AppError values the controllers pass to next(). -/
structure AppError where
  message : String
  status : Nat
deriving DecidableEq, Repr

/-- A handler failure: an AppError passed to next(), an exception thrown by
the remote gateway client and propagated by catchAsync, or an exception
thrown synchronously inside the handler body itself and propagated by
catchAsync — in this codebase the reference to the unbound crypto
identifier in the legacy payment handler, whose module never requires the
crypto module. -/
inductive HandlerErr where
  | app : AppError → HandlerErr
  | upstream : HandlerErr
  | internal : HandlerErr
deriving DecidableEq, Repr

deriving instance DecidableEq for Except

/-- The fields of a ServiceRequest document used by the payment handlers:
the owning customer's id and the provider id of the requested service. -/
structure ServiceRequestDoc where
  customer : String
  provider : String
deriving DecidableEq, Repr

/-- A Bill document: amount in major units and a status string. -/
structure BillDoc where
  amount : Int
  status : String
deriving DecidableEq, Repr

/-- A Payment document for a Bill, as used by the settlement handler. -/
structure PaymentDoc where
  amount : Int
  platform_fee : Int
  status : String
  razorpay_order_id : Option String
  razorpay_payment_id : Option String
  payment_method : Option String
deriving DecidableEq, Repr

/-- A Transfer document recording a pending payout to a provider. -/
structure TransferDoc where
  provider : String
  amount : Int
  status : String
  transfer_mode : String
deriving DecidableEq, Repr

/-- The remote gateway order as returned by razorpay.orders.fetch:
amount in minor units plus the payment method. -/
structure OrderDoc where
  amount : Int
  method : String
deriving DecidableEq, Repr

/-- A ProviderBankDetail document: payout destination of a provider. -/
structure ProviderBankDetailDoc where
  provider : String
  verification_status : String
  razorpay_fund_id : String
deriving DecidableEq, Repr

/-- The documents read and written by the settlement handler, for the bill
id of the request: the ServiceRequest, its Bill, the Payment found for
that Bill, and the Transfer records. -/
structure SettleDB where
  serviceRequest : Option ServiceRequestDoc
  bill : Option BillDoc
  payment : Option PaymentDoc
  transfers : List TransferDoc
deriving DecidableEq, Repr

/-- The environment of a settlement call: authenticated user id, request
body fields, the gateway secret, the keyed hex digest (crypto.createHmac
with sha256 in the source), and the outcome of razorpay.orders.fetch
(none models a rejected remote call). -/
structure SettleEnv where
  userId : String
  razorpay_order_id : Option String
  razorpay_payment_id : Option String
  razorpay_signature : Option String
  secret : String
  hmacHex : String → String → String
  fetchOrder : String → Option OrderDoc

/-- The success payload of the settlement handler: the captured Payment
and the created Transfer, as included in the JSON response. -/
structure SettleResponse where
  payment : PaymentDoc
  transfer : TransferDoc
deriving DecidableEq, Repr

/-- Result of a settlement call: handler result, database state after the
call, and whether the remote gateway was called. -/
structure SettleOutcome where
  result : Except HandlerErr SettleResponse
  db : SettleDB
  calledGateway : Bool
deriving DecidableEq, Repr

def missingDetailsErr : AppError := ⟨"Missing payment verification details", 400⟩

def unauthorizedErr : AppError := ⟨"Invalid service request or unauthorized access", 403⟩

def billNotFoundErr : AppError := ⟨"Bill not found", 400⟩

def billAlreadyPaidErr : AppError := ⟨"Bill already paid", 400⟩

def duplicatePaymentErr : AppError := ⟨"Duplicate payment detected. Payment already captured.", 400⟩

def invalidTransferStatusErr : AppError := ⟨"Invalid transfer status", 400⟩

def invalidSignatureErr : AppError := ⟨"Invalid payment signature", 400⟩

def amountMismatchErr : AppError := ⟨"Payment amount mismatch", 400⟩

def noPaymentEntryErr : AppError := ⟨"No payment entry found for the bill", 400⟩

def transferNotFoundErr : AppError := ⟨"Transfer not found", 404⟩

def duplicateTransferErr : AppError := ⟨"Duplicate transfer detected. Transfer already captured.", 400⟩

def bankDetailsErr : AppError := ⟨"Provider bank details not verified or missing", 400⟩

def requestNotFoundErr : AppError := ⟨"Service request not found", 404⟩

def notAuthorizedToPayErr : AppError := ⟨"Not authorized to pay for this request", 403⟩

def noBillErr : AppError := ⟨"No bill found for this request", 400⟩

/-- Expected signature: keyed hex digest of the order id and payment id
joined by a pipe, keyed by the gateway secret. -/
def generatedSignature (env : SettleEnv) (oid pid : String) : String :=
  env.hmacHex env.secret (oid ++ "|" ++ pid)

/-- Capture step of the settlement handler: Payment.findOneAndUpdate on the
bill, then bill.save with status paid, then Transfer.create. -/
def settleCapture (_env : SettleEnv) (db : SettleDB) (oid pid : String)
    (sr : ServiceRequestDoc) (bill : BillDoc) (order : OrderDoc) : SettleOutcome :=
  match db.payment with
  | none => ⟨.error (.app noPaymentEntryErr), db, true⟩
  | some p =>
      let payment : PaymentDoc :=
        { p with razorpay_order_id := some oid, razorpay_payment_id := some pid,
                 payment_method := some order.method, status := "captured" }
      let transfer : TransferDoc :=
        ⟨sr.provider, payment.amount - payment.platform_fee, "created", "pending"⟩
      ⟨.ok ⟨payment, transfer⟩,
       { db with bill := some { bill with status := "paid" },
                 payment := some payment,
                 transfers := db.transfers ++ [transfer] },
       true⟩

/-- Order lookup and amount reconciliation step of the settlement handler. -/
def settleOrder (env : SettleEnv) (db : SettleDB) (oid pid : String)
    (sr : ServiceRequestDoc) (bill : BillDoc) : SettleOutcome :=
  match env.fetchOrder oid with
  | none => ⟨.error .upstream, db, true⟩
  | some order =>
      if order.amount ≠ bill.amount * 100 then ⟨.error (.app amountMismatchErr), db, true⟩
      else settleCapture env db oid pid sr bill order

/-- Signature verification step of the settlement handler. -/
def settleSignature (env : SettleEnv) (db : SettleDB) (oid pid sig : String)
    (sr : ServiceRequestDoc) (bill : BillDoc) : SettleOutcome :=
  if generatedSignature env oid pid ≠ sig then ⟨.error (.app invalidSignatureErr), db, false⟩
  else settleOrder env db oid pid sr bill

/-- Duplicate-payment guard of the settlement handler: an existing Payment
for the Bill must not be captured and must be in the created state. -/
def settleDupCheck (env : SettleEnv) (db : SettleDB) (oid pid sig : String)
    (sr : ServiceRequestDoc) (bill : BillDoc) : SettleOutcome :=
  match db.payment with
  | some p =>
      if p.status = "captured" then ⟨.error (.app duplicatePaymentErr), db, false⟩
      else if p.status ≠ "created" then ⟨.error (.app invalidTransferStatusErr), db, false⟩
      else settleSignature env db oid pid sig sr bill
  | none => settleSignature env db oid pid sig sr bill

/-- Bill validation step of the settlement handler. -/
def settleBillCheck (env : SettleEnv) (db : SettleDB) (oid pid sig : String)
    (sr : ServiceRequestDoc) : SettleOutcome :=
  match db.bill with
  | none => ⟨.error (.app billNotFoundErr), db, false⟩
  | some bill =>
      if bill.status = "paid" then ⟨.error (.app billAlreadyPaidErr), db, false⟩
      else settleDupCheck env db oid pid sig sr bill

/-- The settlement handler processPaymentFromCustomerToMe of
paymentController.js, embedded step by step from the source. -/
def processPaymentFromCustomerToMe (env : SettleEnv) (db : SettleDB) : SettleOutcome :=
  match env.razorpay_order_id, env.razorpay_payment_id, env.razorpay_signature with
  | some oid, some pid, some sig =>
      match db.serviceRequest with
      | none => ⟨.error (.app unauthorizedErr), db, false⟩
      | some sr =>
          if sr.customer ≠ env.userId then ⟨.error (.app unauthorizedErr), db, false⟩
          else settleBillCheck env db oid pid sig sr
  | _, _, _ => ⟨.error (.app missingDetailsErr), db, false⟩

/-- Arguments of the remote payout call razorpay.transfers.create. -/
structure FundTransferArgs where
  amount : Int
  currency : String
  mode : String
  purpose : String
  fund_account_id : String
deriving DecidableEq, Repr

/-- The documents read and written by the payout handler: the Transfer for
the transfer id of the request and the ProviderBankDetail documents. -/
structure PayoutDB where
  transfer : Option TransferDoc
  bankDetails : List ProviderBankDetailDoc
deriving DecidableEq, Repr

/-- Environment of a payout call: the outcome of razorpay.transfers.create
on given arguments (none models a rejected remote call). -/
structure PayoutEnv where
  transfersCreate : FundTransferArgs → Option String

/-- Result of a payout call: handler result (the gateway fund transfer on
success), database state after the call, and whether the remote gateway
was called. -/
structure PayoutOutcome where
  result : Except HandlerErr String
  db : PayoutDB
  calledGateway : Bool
deriving DecidableEq, Repr

/-- The payout handler processPaymentFromMeToProvider of
paymentController.js, embedded step by step from the source. -/
def processPaymentFromMeToProvider (env : PayoutEnv) (db : PayoutDB) : PayoutOutcome :=
  match db.transfer with
  | none => ⟨.error (.app transferNotFoundErr), db, false⟩
  | some t =>
      if t.status = "captured" then ⟨.error (.app duplicateTransferErr), db, false⟩
      else if t.status ≠ "created" then ⟨.error (.app invalidTransferStatusErr), db, false⟩
      else
        match db.bankDetails.find? (fun b => b.provider == t.provider) with
        | none => ⟨.error (.app bankDetailsErr), db, false⟩
        | some bd =>
            if bd.verification_status ≠ "verified" then
              ⟨.error (.app bankDetailsErr), db, false⟩
            else
              match env.transfersCreate ⟨t.amount, "INR", t.transfer_mode, "payout",
                  bd.razorpay_fund_id⟩ with
              | none => ⟨.error .upstream, db, true⟩
              | some ft =>
                  ⟨.ok ft, { db with transfer := some { t with status := "captured" } }, true⟩

/-- A RazorpayPayment document, as created by the legacy payment handler. -/
structure RazorpayPaymentDoc where
  razorpay_order_id : String
  razorpay_payment_id : String
  razorpay_signature : String
  payment_method : String
  payment_status : String
deriving DecidableEq, Repr

/-- The documents read and written by the legacy payment handler of the
customer controller. -/
structure CustomerPayDB where
  serviceRequest : Option ServiceRequestDoc
  bill : Option BillDoc
  razorpayPayments : List RazorpayPaymentDoc
deriving DecidableEq, Repr

/-- Result of a legacy payment call. -/
structure CustomerPayOutcome where
  result : Except HandlerErr Unit
  db : CustomerPayDB
  calledGateway : Bool
deriving DecidableEq, Repr

/-- The legacy payment handler processPayment of the customer controller,
embedded from the source.  Its module requires Razorpay, Bill and
RazorpayPayment but never requires the crypto module, so once the input,
ownership and bill checks pass, the signature-verification line that
reads crypto.createHmac throws on the unbound identifier under every
Node runtime (ReferenceError where no crypto global exists, TypeError
where the global is WebCrypto, which has no createHmac) and catchAsync
propagates the exception.  The handler therefore always fails before the
gateway order fetch, and the order fetch, duplicate check,
RazorpayPayment creation and bill re-save that follow in its text are
unreachable. -/
def processPayment (env : SettleEnv) (db : CustomerPayDB) : CustomerPayOutcome :=
  match env.razorpay_order_id, env.razorpay_payment_id, env.razorpay_signature with
  | some _oid, some _pid, some _sig =>
      match db.serviceRequest with
      | none => ⟨.error (.app requestNotFoundErr), db, false⟩
      | some sr =>
          if sr.customer ≠ env.userId then ⟨.error (.app notAuthorizedToPayErr), db, false⟩
          else
            match db.bill with
            | none => ⟨.error (.app noBillErr), db, false⟩
            | some _bill => ⟨.error .internal, db, false⟩
  | _, _, _ => ⟨.error (.app missingDetailsErr), db, false⟩

/-- The error kinds of the error handling design, together with the
concrete handler error each kind is surfaced as. -/
inductive ErrorKind where
  | validation
  | authorization
  | notFound
  | duplicateOperation
  | invalidStateTransition
  | amountMismatch
  | signatureMismatch
  | upstreamGateway
deriving DecidableEq, Repr

/-- Assignment of the application-level and gateway errors raised by the
payment handlers to their error kinds of the design.  The internal
exception of the legacy handler carries no design kind and is absent. -/
def errorKindTable : List (ErrorKind × HandlerErr) :=
  [ (.validation, .app missingDetailsErr),
    (.validation, .app bankDetailsErr),
    (.authorization, .app unauthorizedErr),
    (.authorization, .app notAuthorizedToPayErr),
    (.notFound, .app billNotFoundErr),
    (.notFound, .app noPaymentEntryErr),
    (.notFound, .app transferNotFoundErr),
    (.notFound, .app requestNotFoundErr),
    (.notFound, .app noBillErr),
    (.duplicateOperation, .app billAlreadyPaidErr),
    (.duplicateOperation, .app duplicatePaymentErr),
    (.duplicateOperation, .app duplicateTransferErr),
    (.invalidStateTransition, .app invalidTransferStatusErr),
    (.signatureMismatch, .app invalidSignatureErr),
    (.amountMismatch, .app amountMismatchErr),
    (.upstreamGateway, .upstream) ]

/-- A concrete keyed digest used for witnesses. -/
def hmacW : String → String → String := fun key msg => key ++ ":" ++ msg

/-- A concrete settlement environment whose signature and amount agree with
the concrete database below. -/
def envW : SettleEnv :=
  { userId := "cust1"
    razorpay_order_id := some "ord1"
    razorpay_payment_id := some "pay1"
    razorpay_signature := some (hmacW "sec" ("ord1" ++ "|" ++ "pay1"))
    secret := "sec"
    hmacHex := hmacW
    fetchOrder := fun _ => some ⟨25000, "UPI"⟩ }

def srW : ServiceRequestDoc := ⟨"cust1", "prov1"⟩

def billW : BillDoc := ⟨250, "unpaid"⟩

def payW : PaymentDoc := ⟨250, 25, "created", none, none, none⟩

/-- A concrete settlement database on which all preconditions pass. -/
def dbW : SettleDB := ⟨some srW, some billW, some payW, []⟩

theorem settleCapture_error_db (env : SettleEnv) (db : SettleDB) (oid pid : String)
    (sr : ServiceRequestDoc) (bill : BillDoc) (order : OrderDoc) (e : HandlerErr)
    (h : (settleCapture env db oid pid sr bill order).result = .error e) :
    (settleCapture env db oid pid sr bill order).db = db := by
  cases hp : db.payment with
  | none => simp [settleCapture, hp]
  | some p => simp [settleCapture, hp] at h

theorem settleOrder_error_db (env : SettleEnv) (db : SettleDB) (oid pid : String)
    (sr : ServiceRequestDoc) (bill : BillDoc) (e : HandlerErr)
    (h : (settleOrder env db oid pid sr bill).result = .error e) :
    (settleOrder env db oid pid sr bill).db = db := by
  cases hf : env.fetchOrder oid with
  | none => simp [settleOrder, hf]
  | some order =>
      by_cases ha : order.amount = bill.amount * 100
      · simp only [settleOrder, hf, ha, ne_eq, not_true_eq_false, ite_false] at h ⊢
        exact settleCapture_error_db env db oid pid sr bill order e h
      · simp [settleOrder, hf, ha]

theorem settleSignature_error_db (env : SettleEnv) (db : SettleDB) (oid pid sig : String)
    (sr : ServiceRequestDoc) (bill : BillDoc) (e : HandlerErr)
    (h : (settleSignature env db oid pid sig sr bill).result = .error e) :
    (settleSignature env db oid pid sig sr bill).db = db := by
  by_cases hg : generatedSignature env oid pid = sig
  · simp only [settleSignature, hg, ne_eq, not_true_eq_false, ite_false] at h ⊢
    exact settleOrder_error_db env db oid pid sr bill e h
  · simp [settleSignature, hg]

theorem settleDupCheck_error_db (env : SettleEnv) (db : SettleDB) (oid pid sig : String)
    (sr : ServiceRequestDoc) (bill : BillDoc) (e : HandlerErr)
    (h : (settleDupCheck env db oid pid sig sr bill).result = .error e) :
    (settleDupCheck env db oid pid sig sr bill).db = db := by
  cases hp : db.payment with
  | none =>
      simp only [settleDupCheck, hp] at h ⊢
      exact settleSignature_error_db env db oid pid sig sr bill e h
  | some p =>
      by_cases hc : p.status = "captured"
      · simp [settleDupCheck, hp, hc]
      · by_cases hcr : p.status = "created"
        · simp only [settleDupCheck, hp, hc, hcr, ne_eq, ite_false, not_true_eq_false,
            if_false] at h ⊢
          exact settleSignature_error_db env db oid pid sig sr bill e h
        · simp [settleDupCheck, hp, hc, hcr]

theorem settleBillCheck_error_db (env : SettleEnv) (db : SettleDB) (oid pid sig : String)
    (sr : ServiceRequestDoc) (e : HandlerErr)
    (h : (settleBillCheck env db oid pid sig sr).result = .error e) :
    (settleBillCheck env db oid pid sig sr).db = db := by
  cases hb : db.bill with
  | none => simp [settleBillCheck, hb]
  | some bill =>
      by_cases hs : bill.status = "paid"
      · simp [settleBillCheck, hb, hs]
      · simp only [settleBillCheck, hb, hs, ite_false] at h ⊢
        exact settleDupCheck_error_db env db oid pid sig sr bill e h

/-- On any failure, the settlement handler leaves the database unchanged. -/
theorem settle_error_db (env : SettleEnv) (db : SettleDB) (e : HandlerErr)
    (h : (processPaymentFromCustomerToMe env db).result = .error e) :
    (processPaymentFromCustomerToMe env db).db = db := by
  cases ho : env.razorpay_order_id with
  | none => simp [processPaymentFromCustomerToMe, ho]
  | some oid =>
      cases hpd : env.razorpay_payment_id with
      | none => simp [processPaymentFromCustomerToMe, ho, hpd]
      | some pid =>
          cases hsg : env.razorpay_signature with
          | none => simp [processPaymentFromCustomerToMe, ho, hpd, hsg]
          | some sig =>
              cases hsr : db.serviceRequest with
              | none => simp [processPaymentFromCustomerToMe, ho, hpd, hsg, hsr]
              | some sr =>
                  by_cases hc : sr.customer = env.userId
                  · simp only [processPaymentFromCustomerToMe, ho, hpd, hsg, hsr, hc,
                      ne_eq, not_true_eq_false, ite_false] at h ⊢
                    exact settleBillCheck_error_db env db oid pid sig sr e h
                  · simp [processPaymentFromCustomerToMe, ho, hpd, hsg, hsr, hc]

/-- C1: The five settlement preconditions are evaluated in the stated
order — caller owns the ServiceRequest; the Bill exists and is not paid;
any existing Payment is neither captured nor in a state other than
created; the signature verifies; the gateway order amount reconciles —
each check failing exactly when all earlier checks passed aborts with its
own error, and every failure leaves the database (Bill, Payment,
Transfer records) unchanged. -/
theorem settlement_preconditions_order_and_no_mutation
    (env : SettleEnv) (db : SettleDB) (oid pid sig : String)
    (ho : env.razorpay_order_id = some oid)
    (hp : env.razorpay_payment_id = some pid)
    (hs : env.razorpay_signature = some sig) :
    (db.serviceRequest = none →
      processPaymentFromCustomerToMe env db = ⟨.error (.app unauthorizedErr), db, false⟩)
    ∧ (∀ sr, db.serviceRequest = some sr → sr.customer ≠ env.userId →
      processPaymentFromCustomerToMe env db = ⟨.error (.app unauthorizedErr), db, false⟩)
    ∧ (∀ sr, db.serviceRequest = some sr → sr.customer = env.userId →
      db.bill = none →
      processPaymentFromCustomerToMe env db = ⟨.error (.app billNotFoundErr), db, false⟩)
    ∧ (∀ sr bill, db.serviceRequest = some sr → sr.customer = env.userId →
      db.bill = some bill → bill.status = "paid" →
      processPaymentFromCustomerToMe env db = ⟨.error (.app billAlreadyPaidErr), db, false⟩)
    ∧ (∀ sr bill p, db.serviceRequest = some sr → sr.customer = env.userId →
      db.bill = some bill → bill.status ≠ "paid" →
      db.payment = some p → p.status = "captured" →
      processPaymentFromCustomerToMe env db = ⟨.error (.app duplicatePaymentErr), db, false⟩)
    ∧ (∀ sr bill p, db.serviceRequest = some sr → sr.customer = env.userId →
      db.bill = some bill → bill.status ≠ "paid" →
      db.payment = some p → p.status ≠ "captured" → p.status ≠ "created" →
      processPaymentFromCustomerToMe env db =
        ⟨.error (.app invalidTransferStatusErr), db, false⟩)
    ∧ (∀ sr bill, db.serviceRequest = some sr → sr.customer = env.userId →
      db.bill = some bill → bill.status ≠ "paid" →
      (∀ p, db.payment = some p → p.status = "created") →
      generatedSignature env oid pid ≠ sig →
      processPaymentFromCustomerToMe env db =
        ⟨.error (.app invalidSignatureErr), db, false⟩)
    ∧ (∀ sr bill order, db.serviceRequest = some sr → sr.customer = env.userId →
      db.bill = some bill → bill.status ≠ "paid" →
      (∀ p, db.payment = some p → p.status = "created") →
      generatedSignature env oid pid = sig →
      env.fetchOrder oid = some order → order.amount ≠ bill.amount * 100 →
      processPaymentFromCustomerToMe env db =
        ⟨.error (.app amountMismatchErr), db, true⟩)
    ∧ (∀ e, (processPaymentFromCustomerToMe env db).result = .error e →
      (processPaymentFromCustomerToMe env db).db = db) := by
  refine ⟨?_, ?_, ?_, ?_, ?_, ?_, ?_, ?_, ?_⟩
  · intro h1
    simp [processPaymentFromCustomerToMe, ho, hp, hs, h1]
  · intro sr h1 h2
    simp [processPaymentFromCustomerToMe, ho, hp, hs, h1, h2]
  · intro sr h1 h2 h3
    simp [processPaymentFromCustomerToMe, settleBillCheck, ho, hp, hs, h1, h2, h3]
  · intro sr bill h1 h2 h3 h4
    simp [processPaymentFromCustomerToMe, settleBillCheck, ho, hp, hs, h1, h2, h3, h4]
  · intro sr bill p h1 h2 h3 h4 h5 h6
    simp [processPaymentFromCustomerToMe, settleBillCheck, settleDupCheck,
      ho, hp, hs, h1, h2, h3, h4, h5, h6]
  · intro sr bill p h1 h2 h3 h4 h5 h6 h7
    simp [processPaymentFromCustomerToMe, settleBillCheck, settleDupCheck,
      ho, hp, hs, h1, h2, h3, h4, h5, h6, h7]
  · intro sr bill h1 h2 h3 h4 hg hsig
    cases hpm : db.payment with
    | none =>
        simp [processPaymentFromCustomerToMe, settleBillCheck, settleDupCheck,
          settleSignature, ho, hp, hs, h1, h2, h3, h4, hpm, hsig]
    | some p =>
        have hc := hg p hpm
        simp [processPaymentFromCustomerToMe, settleBillCheck, settleDupCheck,
          settleSignature, ho, hp, hs, h1, h2, h3, h4, hpm, hc, hsig]
  · intro sr bill order h1 h2 h3 h4 hg hsig hord hamt
    cases hpm : db.payment with
    | none =>
        simp [processPaymentFromCustomerToMe, settleBillCheck, settleDupCheck,
          settleSignature, settleOrder, ho, hp, hs, h1, h2, h3, h4, hpm, hsig, hord, hamt]
    | some p =>
        have hc := hg p hpm
        simp [processPaymentFromCustomerToMe, settleBillCheck, settleDupCheck,
          settleSignature, settleOrder, ho, hp, hs, h1, h2, h3, h4, hpm, hc, hsig,
          hord, hamt]
  · intro e he
    exact settle_error_db env db e he

/-- Witness for C1 at a concrete input: a database without the service
request fails the first check with the authorization error and is left
unchanged. -/
theorem settlement_preconditions_order_and_no_mutation_witness :
    processPaymentFromCustomerToMe envW { dbW with serviceRequest := none } =
      ⟨.error (.app unauthorizedErr), { dbW with serviceRequest := none }, false⟩ :=
  (settlement_preconditions_order_and_no_mutation envW
    { dbW with serviceRequest := none } "ord1" "pay1"
    (hmacW "sec" ("ord1" ++ "|" ++ "pay1")) rfl rfl rfl).1 rfl

theorem settleCapture_ok (env : SettleEnv) (db : SettleDB) (oid pid : String)
    (sr : ServiceRequestDoc) (bill : BillDoc) (order : OrderDoc) (resp : SettleResponse)
    (h : (settleCapture env db oid pid sr bill order).result = .ok resp) :
    ∃ p, db.payment = some p ∧
      resp.payment = { p with razorpay_order_id := some oid,
                              razorpay_payment_id := some pid,
                              payment_method := some order.method,
                              status := "captured" } ∧
      resp.transfer = ⟨sr.provider, resp.payment.amount - resp.payment.platform_fee,
                       "created", "pending"⟩ ∧
      settleCapture env db oid pid sr bill order =
        ⟨.ok resp,
         { db with bill := some { bill with status := "paid" },
                   payment := some resp.payment,
                   transfers := db.transfers ++ [resp.transfer] }, true⟩ := by
  cases hp : db.payment with
  | none => simp [settleCapture, hp] at h
  | some p =>
      obtain ⟨rp, rt⟩ := resp
      simp only [settleCapture, hp, Except.ok.injEq, SettleResponse.mk.injEq] at h
      obtain ⟨h1, h2⟩ := h
      subst h1
      subst h2
      exact ⟨p, rfl, rfl, rfl, by simp [settleCapture, hp]⟩

theorem settleOrder_ok (env : SettleEnv) (db : SettleDB) (oid pid : String)
    (sr : ServiceRequestDoc) (bill : BillDoc) (resp : SettleResponse)
    (h : (settleOrder env db oid pid sr bill).result = .ok resp) :
    ∃ order, env.fetchOrder oid = some order ∧ order.amount = bill.amount * 100 ∧
      settleOrder env db oid pid sr bill = settleCapture env db oid pid sr bill order := by
  cases hf : env.fetchOrder oid with
  | none => simp [settleOrder, hf] at h
  | some order =>
      by_cases ha : order.amount = bill.amount * 100
      · exact ⟨order, rfl, ha, by simp [settleOrder, hf, ha]⟩
      · simp [settleOrder, hf, ha] at h

theorem settleSignature_ok (env : SettleEnv) (db : SettleDB) (oid pid sig : String)
    (sr : ServiceRequestDoc) (bill : BillDoc) (resp : SettleResponse)
    (h : (settleSignature env db oid pid sig sr bill).result = .ok resp) :
    generatedSignature env oid pid = sig ∧
      settleSignature env db oid pid sig sr bill = settleOrder env db oid pid sr bill := by
  by_cases hg : generatedSignature env oid pid = sig
  · exact ⟨hg, by simp [settleSignature, hg]⟩
  · simp [settleSignature, hg] at h

theorem settleDupCheck_ok (env : SettleEnv) (db : SettleDB) (oid pid sig : String)
    (sr : ServiceRequestDoc) (bill : BillDoc) (resp : SettleResponse)
    (h : (settleDupCheck env db oid pid sig sr bill).result = .ok resp) :
    settleDupCheck env db oid pid sig sr bill = settleSignature env db oid pid sig sr bill := by
  cases hp : db.payment with
  | none => simp [settleDupCheck, hp]
  | some p =>
      by_cases hc : p.status = "captured"
      · simp [settleDupCheck, hp, hc] at h
      · by_cases hcr : p.status = "created"
        · simp [settleDupCheck, hp, hc, hcr]
        · simp [settleDupCheck, hp, hc, hcr] at h

theorem settleBillCheck_ok (env : SettleEnv) (db : SettleDB) (oid pid sig : String)
    (sr : ServiceRequestDoc) (resp : SettleResponse)
    (h : (settleBillCheck env db oid pid sig sr).result = .ok resp) :
    ∃ bill, db.bill = some bill ∧ bill.status ≠ "paid" ∧
      settleBillCheck env db oid pid sig sr = settleDupCheck env db oid pid sig sr bill := by
  cases hb : db.bill with
  | none => simp [settleBillCheck, hb] at h
  | some bill =>
      by_cases hs : bill.status = "paid"
      · simp [settleBillCheck, hb, hs] at h
      · exact ⟨bill, rfl, hs, by simp [settleBillCheck, hb, hs]⟩

theorem settle_ok_stages (env : SettleEnv) (db : SettleDB) (resp : SettleResponse)
    (h : (processPaymentFromCustomerToMe env db).result = .ok resp) :
    ∃ oid pid sig sr,
      env.razorpay_order_id = some oid ∧ env.razorpay_payment_id = some pid ∧
      env.razorpay_signature = some sig ∧
      db.serviceRequest = some sr ∧ sr.customer = env.userId ∧
      processPaymentFromCustomerToMe env db = settleBillCheck env db oid pid sig sr := by
  cases ho : env.razorpay_order_id with
  | none => simp [processPaymentFromCustomerToMe, ho] at h
  | some oid =>
  cases hpd : env.razorpay_payment_id with
  | none => simp [processPaymentFromCustomerToMe, ho, hpd] at h
  | some pid =>
  cases hsg : env.razorpay_signature with
  | none => simp [processPaymentFromCustomerToMe, ho, hpd, hsg] at h
  | some sig =>
  cases hsr : db.serviceRequest with
  | none => simp [processPaymentFromCustomerToMe, ho, hpd, hsg, hsr] at h
  | some sr =>
  by_cases hc : sr.customer = env.userId
  · exact ⟨oid, pid, sig, sr, rfl, rfl, rfl, rfl, hc,
      by simp [processPaymentFromCustomerToMe, ho, hpd, hsg, hsr, hc]⟩
  · simp [processPaymentFromCustomerToMe, ho, hpd, hsg, hsr, hc] at h

/-- On success, the settlement handler flips the Bill to paid, stores the
captured Payment, appends exactly the one created Transfer, and the
transfer amount is the payment amount minus the platform fee. -/
theorem settle_ok_db (env : SettleEnv) (db : SettleDB) (resp : SettleResponse)
    (h : (processPaymentFromCustomerToMe env db).result = .ok resp) :
    ∃ bill, db.bill = some bill ∧ bill.status ≠ "paid" ∧
      processPaymentFromCustomerToMe env db =
        ⟨.ok resp,
         { db with bill := some { bill with status := "paid" },
                   payment := some resp.payment,
                   transfers := db.transfers ++ [resp.transfer] }, true⟩ ∧
      resp.transfer.amount = resp.payment.amount - resp.payment.platform_fee := by
  obtain ⟨oid, pid, sig, sr, ho, hpd, hsg, hsr, hc, e1⟩ := settle_ok_stages env db resp h
  rw [e1] at h
  obtain ⟨bill, hb, hbs, e2⟩ := settleBillCheck_ok env db oid pid sig sr resp h
  rw [e2] at h
  have e3 := settleDupCheck_ok env db oid pid sig sr bill resp h
  rw [e3] at h
  obtain ⟨-, e4⟩ := settleSignature_ok env db oid pid sig sr bill resp h
  rw [e4] at h
  obtain ⟨order, -, -, e5⟩ := settleOrder_ok env db oid pid sr bill resp h
  rw [e5] at h
  obtain ⟨p, -, -, hrt, e6⟩ := settleCapture_ok env db oid pid sr bill order resp h
  refine ⟨bill, hb, hbs, ?_, ?_⟩
  · rw [e1, e2, e3, e4, e5, e6]
  · rw [hrt]

/-- The concrete response produced by the settlement handler on envW/dbW. -/
def respW : SettleResponse :=
  ⟨⟨250, 25, "captured", some "ord1", some "pay1", some "UPI"⟩,
   ⟨"prov1", 225, "created", "pending"⟩⟩

/-- The concrete database state after the successful settlement on dbW. -/
def dbW1 : SettleDB :=
  ⟨some srW, some ⟨250, "paid"⟩, some respW.payment, [respW.transfer]⟩

/-- C2: capture succeeds at most once per Bill: after a successful
settlement the Bill is paid, and a second sequential settlement call for
the same Bill by the owning customer is rejected with the already-paid
error — a duplicate-operation error in the error-kind table — before any
mutation; the Bill stays paid and no second Transfer is created. -/
theorem capture_at_most_once
    (env env2 : SettleEnv) (db db1 : SettleDB) (resp : SettleResponse)
    (h : (processPaymentFromCustomerToMe env db).result = .ok resp)
    (hdb1 : db1 = (processPaymentFromCustomerToMe env db).db)
    (oid2 pid2 sig2 : String)
    (ho2 : env2.razorpay_order_id = some oid2)
    (hp2 : env2.razorpay_payment_id = some pid2)
    (hs2 : env2.razorpay_signature = some sig2)
    (sr : ServiceRequestDoc) (hsr : db.serviceRequest = some sr)
    (hcust : sr.customer = env2.userId) :
    processPaymentFromCustomerToMe env2 db1 =
      ⟨.error (.app billAlreadyPaidErr), db1, false⟩
    ∧ (ErrorKind.duplicateOperation, HandlerErr.app billAlreadyPaidErr) ∈ errorKindTable
    ∧ (∃ b1, db1.bill = some b1 ∧ b1.status = "paid")
    ∧ (processPaymentFromCustomerToMe env2 db1).db.transfers = db1.transfers := by
  obtain ⟨bill, hb, hbs, heq, hamt⟩ := settle_ok_db env db resp h
  have hdb1e : db1 = { db with bill := some { bill with status := "paid" },
                               payment := some resp.payment,
                               transfers := db.transfers ++ [resp.transfer] } := by
    rw [hdb1, heq]
  have hbill1 : db1.bill = some { bill with status := "paid" } := by rw [hdb1e]
  have hsr1 : db1.serviceRequest = some sr := by rw [hdb1e]; exact hsr
  have main : processPaymentFromCustomerToMe env2 db1 =
      ⟨.error (.app billAlreadyPaidErr), db1, false⟩ := by
    simp [processPaymentFromCustomerToMe, settleBillCheck, ho2, hp2, hs2, hsr1,
      hcust, hbill1]
  exact ⟨main, by decide, ⟨_, hbill1, rfl⟩, by rw [main]⟩

/-- Witness for C2 at a concrete input: after the successful settlement on
the concrete database, the repeated call returns the already-paid error
and changes nothing. -/
theorem capture_at_most_once_witness :
    processPaymentFromCustomerToMe envW dbW1 =
      ⟨.error (.app billAlreadyPaidErr), dbW1, false⟩ :=
  (capture_at_most_once envW envW dbW dbW1 respW (by decide) (by decide)
    "ord1" "pay1" (hmacW "sec" ("ord1" ++ "|" ++ "pay1")) rfl rfl rfl
    srW rfl rfl).1

/-- C5: for every Transfer created by a successful settlement, the transfer
amount is the payment amount minus the platform fee and the new Transfer
is exactly the one record appended; the payout handler never changes the
amount of a Transfer. -/
theorem transfer_amount_invariant :
    (∀ env db resp, (processPaymentFromCustomerToMe env db).result = .ok resp →
      resp.transfer.amount = resp.payment.amount - resp.payment.platform_fee ∧
      (processPaymentFromCustomerToMe env db).db.transfers = db.transfers ++ [resp.transfer])
    ∧ (∀ env db, ((processPaymentFromMeToProvider env db).db.transfer).map TransferDoc.amount =
        (db.transfer).map TransferDoc.amount) := by
  constructor
  · intro env db resp h
    obtain ⟨bill, hb, hbs, heq, hamt⟩ := settle_ok_db env db resp h
    exact ⟨hamt, by rw [heq]⟩
  · intro env db
    cases ht : db.transfer with
    | none => simp [processPaymentFromMeToProvider, ht]
    | some t =>
        by_cases h1 : t.status = "captured"
        · simp [processPaymentFromMeToProvider, ht, h1]
        · by_cases h2 : t.status = "created"
          · cases hbd : db.bankDetails.find? (fun b => b.provider == t.provider) with
            | none => simp [processPaymentFromMeToProvider, ht, h1, h2, hbd]
            | some bd =>
                by_cases h3 : bd.verification_status = "verified"
                · cases hft : env.transfersCreate
                      ⟨t.amount, "INR", t.transfer_mode, "payout", bd.razorpay_fund_id⟩ with
                  | none => simp [processPaymentFromMeToProvider, ht, h1, h2, hbd, h3, hft]
                  | some ft =>
                      simp [processPaymentFromMeToProvider, ht, h1, h2, hbd, h3, hft]
                · simp [processPaymentFromMeToProvider, ht, h1, h2, hbd, h3]
          · simp [processPaymentFromMeToProvider, ht, h1, h2]

/-- Witness for C5 at a concrete input: the concrete settlement creates a
transfer of 225 = 250 - 25 and appends exactly that record. -/
theorem transfer_amount_invariant_witness :
    respW.transfer.amount = respW.payment.amount - respW.payment.platform_fee ∧
    (processPaymentFromCustomerToMe envW dbW).db.transfers =
      dbW.transfers ++ [respW.transfer] :=
  transfer_amount_invariant.1 envW dbW respW (by decide)

/-- C10: the settlement handler never creates a Payment record: with no
Payment for the Bill, every precondition — ownership, bill, duplicate
guard, signature, and gateway amount — passes, the gateway is called, and
the handler then fails with the no-payment-entry error, leaving the Bill
unpaid and creating neither a Payment nor a Transfer. -/
theorem settlement_requires_existing_payment
    (env : SettleEnv) (db : SettleDB) (oid pid sig : String) (sr : ServiceRequestDoc)
    (bill : BillDoc) (order : OrderDoc)
    (ho : env.razorpay_order_id = some oid)
    (hp : env.razorpay_payment_id = some pid)
    (hs : env.razorpay_signature = some sig)
    (hsr : db.serviceRequest = some sr) (hc : sr.customer = env.userId)
    (hb : db.bill = some bill) (hbs : bill.status ≠ "paid")
    (hpm : db.payment = none)
    (hsig : generatedSignature env oid pid = sig)
    (hord : env.fetchOrder oid = some order)
    (hamt : order.amount = bill.amount * 100) :
    processPaymentFromCustomerToMe env db =
      ⟨.error (.app noPaymentEntryErr), db, true⟩ := by
  simp [processPaymentFromCustomerToMe, settleBillCheck, settleDupCheck, settleSignature,
    settleOrder, settleCapture, ho, hp, hs, hsr, hc, hb, hbs, hpm, hsig, hord, hamt]

/-- Witness for C10 at a concrete input: on the concrete database without a
Payment entry, the handler calls the gateway and then fails with the
no-payment-entry error, leaving the database unchanged. -/
theorem settlement_requires_existing_payment_witness :
    processPaymentFromCustomerToMe envW { dbW with payment := none } =
      ⟨.error (.app noPaymentEntryErr), { dbW with payment := none }, true⟩ :=
  settlement_requires_existing_payment envW { dbW with payment := none }
    "ord1" "pay1" (hmacW "sec" ("ord1" ++ "|" ++ "pay1")) srW billW ⟨25000, "UPI"⟩
    rfl rfl rfl rfl rfl rfl (by decide) rfl rfl rfl (by decide)

/-- The concrete settlement environment with a tampered signature. -/
def envWbad : SettleEnv := { envW with razorpay_signature := some "bad" }

/-- C3: the expected signature is the keyed digest of the order id and
payment id joined by a pipe under the shared secret; a supplied signature
differing from it in at least one character position always fails
verification and aborts the call with the signature error before any
mutation. -/
theorem signature_mismatch_always_rejected
    (env : SettleEnv) (db : SettleDB) (oid pid sig : String) (sr : ServiceRequestDoc)
    (bill : BillDoc) (i : Nat)
    (ho : env.razorpay_order_id = some oid)
    (hp : env.razorpay_payment_id = some pid)
    (hs : env.razorpay_signature = some sig)
    (hsr : db.serviceRequest = some sr) (hc : sr.customer = env.userId)
    (hb : db.bill = some bill) (hbs : bill.status ≠ "paid")
    (hguard : ∀ p, db.payment = some p → p.status = "created")
    (hdiff : sig.data.get? i ≠ (generatedSignature env oid pid).data.get? i) :
    generatedSignature env oid pid = env.hmacHex env.secret (oid ++ "|" ++ pid) ∧
    processPaymentFromCustomerToMe env db =
      ⟨.error (.app invalidSignatureErr), db, false⟩ := by
  have hne : generatedSignature env oid pid ≠ sig := fun he => hdiff (by rw [he])
  refine ⟨rfl, ?_⟩
  cases hpm : db.payment with
  | none =>
      simp [processPaymentFromCustomerToMe, settleBillCheck, settleDupCheck,
        settleSignature, ho, hp, hs, hsr, hc, hb, hbs, hpm, hne]
  | some p =>
      have hcr := hguard p hpm
      simp [processPaymentFromCustomerToMe, settleBillCheck, settleDupCheck,
        settleSignature, ho, hp, hs, hsr, hc, hb, hbs, hpm, hcr, hne]

/-- Witness for C3 at a concrete input: the signature string differing from
the expected digest in its first character is rejected with the signature
error and the database is unchanged. -/
theorem signature_mismatch_always_rejected_witness :
    generatedSignature envWbad "ord1" "pay1" =
      envWbad.hmacHex envWbad.secret ("ord1" ++ "|" ++ "pay1") ∧
    processPaymentFromCustomerToMe envWbad dbW =
      ⟨.error (.app invalidSignatureErr), dbW, false⟩ :=
  signature_mismatch_always_rejected envWbad dbW "ord1" "pay1" "bad" srW billW 0
    rfl rfl rfl rfl rfl rfl (by decide)
    (fun p hp => by cases hp; rfl) (by decide)

/-- C4: with all earlier settlement checks passing and the gateway order
fetched, the amount reconciliation fails exactly when the gateway order
amount differs from the bill amount times 100, and on mismatch the call
aborts with the amount-mismatch error, the gateway having been consulted
but no state mutated. -/
theorem amount_reconciliation
    (env : SettleEnv) (db : SettleDB) (oid pid sig : String) (sr : ServiceRequestDoc)
    (bill : BillDoc) (order : OrderDoc)
    (ho : env.razorpay_order_id = some oid)
    (hp : env.razorpay_payment_id = some pid)
    (hs : env.razorpay_signature = some sig)
    (hsr : db.serviceRequest = some sr) (hc : sr.customer = env.userId)
    (hb : db.bill = some bill) (hbs : bill.status ≠ "paid")
    (hguard : ∀ p, db.payment = some p → p.status = "created")
    (hsig : generatedSignature env oid pid = sig)
    (hord : env.fetchOrder oid = some order) :
    ((processPaymentFromCustomerToMe env db).result = .error (.app amountMismatchErr) ↔
      order.amount ≠ bill.amount * 100)
    ∧ (order.amount ≠ bill.amount * 100 →
      processPaymentFromCustomerToMe env db = ⟨.error (.app amountMismatchErr), db, true⟩) := by
  have mismatchCase : order.amount ≠ bill.amount * 100 →
      processPaymentFromCustomerToMe env db =
        ⟨.error (.app amountMismatchErr), db, true⟩ := by
    intro hamt
    cases hpm : db.payment with
    | none =>
        simp [processPaymentFromCustomerToMe, settleBillCheck, settleDupCheck,
          settleSignature, settleOrder, ho, hp, hs, hsr, hc, hb, hbs, hpm, hsig,
          hord, hamt]
    | some p =>
        have hcr := hguard p hpm
        simp [processPaymentFromCustomerToMe, settleBillCheck, settleDupCheck,
          settleSignature, settleOrder, ho, hp, hs, hsr, hc, hb, hbs, hpm, hcr, hsig,
          hord, hamt]
  refine ⟨⟨fun hres => ?_, fun hamt => by rw [mismatchCase hamt]⟩, mismatchCase⟩
  intro hamt
  cases hpm : db.payment with
  | none =>
      have hred : (processPaymentFromCustomerToMe env db).result =
          .error (.app noPaymentEntryErr) := by
        simp [processPaymentFromCustomerToMe, settleBillCheck, settleDupCheck,
          settleSignature, settleOrder, settleCapture, ho, hp, hs, hsr, hc, hb, hbs,
          hpm, hsig, hord, hamt]
      exact absurd (hred.symm.trans hres) (by decide)
  | some p =>
      have hcr := hguard p hpm
      have hred : (processPaymentFromCustomerToMe env db).result = .ok
          ⟨{ p with razorpay_order_id := some oid, razorpay_payment_id := some pid,
                    payment_method := some order.method, status := "captured" },
           ⟨sr.provider, p.amount - p.platform_fee, "created", "pending"⟩⟩ := by
        simp [processPaymentFromCustomerToMe, settleBillCheck, settleDupCheck,
          settleSignature, settleOrder, settleCapture, ho, hp, hs, hsr, hc, hb, hbs,
          hpm, hcr, hsig, hord, hamt]
      rw [hred] at hres
      exact absurd hres (by simp)

/-- Witness for C4 at concrete inputs: a bill of 250 reconciles against a
gateway amount of 25000 and is rejected against 25001 with the
amount-mismatch error. -/
theorem amount_reconciliation_witness :
    (¬(processPaymentFromCustomerToMe envW dbW).result = .error (.app amountMismatchErr)) ∧
    processPaymentFromCustomerToMe { envW with fetchOrder := fun _ => some ⟨25001, "UPI"⟩ }
        dbW =
      ⟨.error (.app amountMismatchErr), dbW, true⟩ := by
  constructor
  · have h := (amount_reconciliation envW dbW "ord1" "pay1"
      (hmacW "sec" ("ord1" ++ "|" ++ "pay1")) srW billW ⟨25000, "UPI"⟩
      rfl rfl rfl rfl rfl rfl (by decide) (fun p hp => by cases hp; rfl) rfl rfl).1
    rw [h]
    decide
  · exact (amount_reconciliation { envW with fetchOrder := fun _ => some ⟨25001, "UPI"⟩ }
      dbW "ord1" "pay1" (hmacW "sec" ("ord1" ++ "|" ++ "pay1")) srW billW ⟨25001, "UPI"⟩
      rfl rfl rfl rfl rfl rfl (by decide) (fun p hp => by cases hp; rfl) rfl rfl).2
      (by decide)

def tW : TransferDoc := ⟨"prov1", 225, "created", "IMPS"⟩

def bdW : ProviderBankDetailDoc := ⟨"prov1", "verified", "fund1"⟩

def bdWbad : ProviderBankDetailDoc := ⟨"prov1", "pending", "fund1"⟩

/-- A concrete payout database with a created Transfer and verified bank
details. -/
def pdbW : PayoutDB := ⟨some tW, [bdW]⟩

/-- A payout environment whose remote call succeeds. -/
def penvOk : PayoutEnv := ⟨fun _ => some "ft1"⟩

/-- A payout environment whose remote call fails. -/
def penvFail : PayoutEnv := ⟨fun _ => none⟩

/-- C6: the payout dispatch is refused whenever the ProviderBankDetail for
the Transfer's provider is missing or not verified: the result is an
application error, the remote payout call is never made, and the database
— in particular the Transfer — is unchanged, regardless of the Transfer's
state; when the Transfer is in the created state the error is precisely
the bank-details error. -/
theorem payout_requires_verified_bank_details
    (env : PayoutEnv) (db : PayoutDB) (t : TransferDoc)
    (ht : db.transfer = some t)
    (hbank : ∀ bd, db.bankDetails.find? (fun b => b.provider == t.provider) = some bd →
      bd.verification_status ≠ "verified") :
    (∃ a, (processPaymentFromMeToProvider env db).result = .error (.app a))
    ∧ (processPaymentFromMeToProvider env db).calledGateway = false
    ∧ (processPaymentFromMeToProvider env db).db = db
    ∧ (t.status = "created" →
      processPaymentFromMeToProvider env db = ⟨.error (.app bankDetailsErr), db, false⟩) := by
  by_cases h1 : t.status = "captured"
  · have hred : processPaymentFromMeToProvider env db =
        ⟨.error (.app duplicateTransferErr), db, false⟩ := by
      simp [processPaymentFromMeToProvider, ht, h1]
    refine ⟨⟨duplicateTransferErr, by rw [hred]⟩, by rw [hred], by rw [hred], ?_⟩
    intro h2
    exact absurd (h1.symm.trans h2) (by decide)
  · by_cases h2 : t.status = "created"
    · have hred : processPaymentFromMeToProvider env db =
          ⟨.error (.app bankDetailsErr), db, false⟩ := by
        cases hbd : db.bankDetails.find? (fun b => b.provider == t.provider) with
        | none => simp [processPaymentFromMeToProvider, ht, h1, h2, hbd]
        | some bd =>
            have hv := hbank bd hbd
            simp [processPaymentFromMeToProvider, ht, h1, h2, hbd, hv]
      exact ⟨⟨bankDetailsErr, by rw [hred]⟩, by rw [hred], by rw [hred], fun _ => hred⟩
    · have hred : processPaymentFromMeToProvider env db =
          ⟨.error (.app invalidTransferStatusErr), db, false⟩ := by
        simp [processPaymentFromMeToProvider, ht, h1, h2]
      exact ⟨⟨invalidTransferStatusErr, by rw [hred]⟩, by rw [hred], by rw [hred],
        fun hcr => absurd hcr h2⟩

/-- Witness for C6 at a concrete input: with pending bank details the
payout is refused with the bank-details error, the gateway untouched and
the database unchanged. -/
theorem payout_requires_verified_bank_details_witness :
    processPaymentFromMeToProvider penvOk ⟨some tW, [bdWbad]⟩ =
      ⟨.error (.app bankDetailsErr), ⟨some tW, [bdWbad]⟩, false⟩ :=
  (payout_requires_verified_bank_details penvOk ⟨some tW, [bdWbad]⟩ tW rfl
    (by
      intro bd h
      have hb : bdWbad = bd :=
        Option.some.inj ((by decide : List.find?
          (fun b => b.provider == tW.provider) [bdWbad] = some bdWbad).symm.trans h)
      rw [← hb]
      decide)).2.2.2 rfl

/-- C7: with a created Transfer and verified bank details, the Transfer is
moved to captured exactly when the remote payout call succeeds; a failing
remote call surfaces the upstream error and leaves the Transfer in the
created state, and any failing payout call leaves the database unchanged. -/
theorem payout_captured_only_after_remote_success
    (env : PayoutEnv) (db : PayoutDB) (t : TransferDoc) (bd : ProviderBankDetailDoc)
    (ht : db.transfer = some t) (hts : t.status = "created")
    (hbd : db.bankDetails.find? (fun b => b.provider == t.provider) = some bd)
    (hv : bd.verification_status = "verified") :
    (env.transfersCreate ⟨t.amount, "INR", t.transfer_mode, "payout", bd.razorpay_fund_id⟩
        = none →
      processPaymentFromMeToProvider env db = ⟨.error .upstream, db, true⟩)
    ∧ (∀ ft, env.transfersCreate ⟨t.amount, "INR", t.transfer_mode, "payout",
          bd.razorpay_fund_id⟩ = some ft →
      processPaymentFromMeToProvider env db =
        ⟨.ok ft, { db with transfer := some { t with status := "captured" } }, true⟩)
    ∧ (∀ e, (processPaymentFromMeToProvider env db).result = .error e →
      (processPaymentFromMeToProvider env db).db = db) := by
  refine ⟨?_, ?_, ?_⟩
  · intro hft
    simp [processPaymentFromMeToProvider, ht, hts, hbd, hv, hft]
  · intro ft hft
    simp [processPaymentFromMeToProvider, ht, hts, hbd, hv, hft]
  · intro e he
    cases hft : env.transfersCreate
        ⟨t.amount, "INR", t.transfer_mode, "payout", bd.razorpay_fund_id⟩ with
    | none => simp [processPaymentFromMeToProvider, ht, hts, hbd, hv, hft]
    | some ft =>
        rw [(by simp [processPaymentFromMeToProvider, ht, hts, hbd, hv, hft] :
          processPaymentFromMeToProvider env db =
            ⟨.ok ft, { db with transfer := some { t with status := "captured" } }, true⟩)]
          at he
        exact absurd he (by simp)

/-- Witness for C7 at concrete inputs: a failing remote call leaves the
created Transfer untouched and surfaces the upstream error; a succeeding
one captures the Transfer. -/
theorem payout_captured_only_after_remote_success_witness :
    processPaymentFromMeToProvider penvFail pdbW = ⟨.error .upstream, pdbW, true⟩ ∧
    processPaymentFromMeToProvider penvOk pdbW =
      ⟨.ok "ft1", { pdbW with transfer := some { tW with status := "captured" } }, true⟩ :=
  ⟨(payout_captured_only_after_remote_success penvFail pdbW tW bdW rfl rfl (by decide)
      rfl).1 rfl,
   (payout_captured_only_after_remote_success penvOk pdbW tW bdW rfl rfl (by decide)
      rfl).2.1 "ft1" rfl⟩

/-- A concrete legacy-handler database whose Bill is already paid. -/
def cdbPaid : CustomerPayDB := ⟨some srW, some ⟨250, "paid"⟩, []⟩

/-- A concrete settlement database whose Bill is already paid. -/
def dbPaidW : SettleDB := ⟨some srW, some ⟨250, "paid"⟩, some payW, []⟩

/-- With the Bill already paid, the settlement handler always fails before
the gateway order fetch and leaves the database unchanged. -/
theorem settle_paid_bill_rejected (env : SettleEnv) (db : SettleDB) (bill : BillDoc)
    (hb : db.bill = some bill) (hbs : bill.status = "paid") :
    (∃ e, (processPaymentFromCustomerToMe env db).result = .error e) ∧
    (processPaymentFromCustomerToMe env db).calledGateway = false ∧
    (processPaymentFromCustomerToMe env db).db = db := by
  cases ho : env.razorpay_order_id with
  | none =>
      have hred : processPaymentFromCustomerToMe env db =
          ⟨.error (.app missingDetailsErr), db, false⟩ := by
        simp [processPaymentFromCustomerToMe, ho]
      exact ⟨⟨_, by rw [hred]⟩, by rw [hred], by rw [hred]⟩
  | some oid =>
  cases hpd : env.razorpay_payment_id with
  | none =>
      have hred : processPaymentFromCustomerToMe env db =
          ⟨.error (.app missingDetailsErr), db, false⟩ := by
        simp [processPaymentFromCustomerToMe, ho, hpd]
      exact ⟨⟨_, by rw [hred]⟩, by rw [hred], by rw [hred]⟩
  | some pid =>
  cases hsg : env.razorpay_signature with
  | none =>
      have hred : processPaymentFromCustomerToMe env db =
          ⟨.error (.app missingDetailsErr), db, false⟩ := by
        simp [processPaymentFromCustomerToMe, ho, hpd, hsg]
      exact ⟨⟨_, by rw [hred]⟩, by rw [hred], by rw [hred]⟩
  | some sig =>
  cases hsr : db.serviceRequest with
  | none =>
      have hred : processPaymentFromCustomerToMe env db =
          ⟨.error (.app unauthorizedErr), db, false⟩ := by
        simp [processPaymentFromCustomerToMe, ho, hpd, hsg, hsr]
      exact ⟨⟨_, by rw [hred]⟩, by rw [hred], by rw [hred]⟩
  | some sr =>
  by_cases hc : sr.customer = env.userId
  case neg =>
      have hred : processPaymentFromCustomerToMe env db =
          ⟨.error (.app unauthorizedErr), db, false⟩ := by
        simp [processPaymentFromCustomerToMe, ho, hpd, hsg, hsr, hc]
      exact ⟨⟨_, by rw [hred]⟩, by rw [hred], by rw [hred]⟩
  case pos =>
      have hred : processPaymentFromCustomerToMe env db =
          ⟨.error (.app billAlreadyPaidErr), db, false⟩ := by
        simp [processPaymentFromCustomerToMe, settleBillCheck, ho, hpd, hsg, hsr, hc,
          hb, hbs]
      exact ⟨⟨_, by rw [hred]⟩, by rw [hred], by rw [hred]⟩

/-- The legacy payment handler fails on every input — at the latest on the
unbound crypto identifier of its signature step — without ever reaching
its gateway order fetch and without mutating the database. -/
theorem legacy_always_fails (env : SettleEnv) (db : CustomerPayDB) :
    (∃ e, (processPayment env db).result = .error e) ∧
    (processPayment env db).calledGateway = false ∧
    (processPayment env db).db = db := by
  cases ho : env.razorpay_order_id with
  | none =>
      have hred : processPayment env db = ⟨.error (.app missingDetailsErr), db, false⟩ := by
        simp [processPayment, ho]
      exact ⟨⟨_, by rw [hred]⟩, by rw [hred], by rw [hred]⟩
  | some oid =>
  cases hpd : env.razorpay_payment_id with
  | none =>
      have hred : processPayment env db = ⟨.error (.app missingDetailsErr), db, false⟩ := by
        simp [processPayment, ho, hpd]
      exact ⟨⟨_, by rw [hred]⟩, by rw [hred], by rw [hred]⟩
  | some pid =>
  cases hsg : env.razorpay_signature with
  | none =>
      have hred : processPayment env db = ⟨.error (.app missingDetailsErr), db, false⟩ := by
        simp [processPayment, ho, hpd, hsg]
      exact ⟨⟨_, by rw [hred]⟩, by rw [hred], by rw [hred]⟩
  | some sig =>
  cases hsr : db.serviceRequest with
  | none =>
      have hred : processPayment env db = ⟨.error (.app requestNotFoundErr), db, false⟩ := by
        simp [processPayment, ho, hpd, hsg, hsr]
      exact ⟨⟨_, by rw [hred]⟩, by rw [hred], by rw [hred]⟩
  | some sr =>
  by_cases hc : sr.customer = env.userId
  case neg =>
      have hred : processPayment env db =
          ⟨.error (.app notAuthorizedToPayErr), db, false⟩ := by
        simp [processPayment, ho, hpd, hsg, hsr, hc]
      exact ⟨⟨_, by rw [hred]⟩, by rw [hred], by rw [hred]⟩
  case pos =>
  cases hb : db.bill with
  | none =>
      have hred : processPayment env db = ⟨.error (.app noBillErr), db, false⟩ := by
        simp [processPayment, ho, hpd, hsg, hsr, hc, hb]
      exact ⟨⟨_, by rw [hred]⟩, by rw [hred], by rw [hred]⟩
  | some bill =>
      have hred : processPayment env db = ⟨.error .internal, db, false⟩ := by
        simp [processPayment, ho, hpd, hsg, hsr, hc, hb]
      exact ⟨⟨_, by rw [hred]⟩, by rw [hred], by rw [hred]⟩

/-- C8: a payment-processing request against a Bill that is already paid is
rejected before any remote gateway call and before any mutation, in both
payment-processing handlers of the system: the settlement handler rejects
it with the already-paid error before its order fetch, and the legacy
handler fails on the unbound crypto identifier of its signature step
before its order fetch. -/
theorem paid_bill_rejected_before_gateway
    (env env2 : SettleEnv) (db : SettleDB) (cdb : CustomerPayDB) (bill cbill : BillDoc)
    (hb : db.bill = some bill) (hbs : bill.status = "paid")
    ( _hcb : cdb.bill = some cbill) ( _hcbs : cbill.status = "paid") :
    ((∃ e, (processPaymentFromCustomerToMe env db).result = .error e) ∧
      (processPaymentFromCustomerToMe env db).calledGateway = false ∧
      (processPaymentFromCustomerToMe env db).db = db)
    ∧ ((∃ e, (processPayment env2 cdb).result = .error e) ∧
      (processPayment env2 cdb).calledGateway = false ∧
      (processPayment env2 cdb).db = cdb) :=
  ⟨settle_paid_bill_rejected env db bill hb hbs, legacy_always_fails env2 cdb⟩

/-- Witness for C8 at concrete inputs: both handlers reject the concrete
paid Bill without calling the gateway and without mutating anything. -/
theorem paid_bill_rejected_before_gateway_witness :
    ((∃ e, (processPaymentFromCustomerToMe envW dbPaidW).result = .error e) ∧
      (processPaymentFromCustomerToMe envW dbPaidW).calledGateway = false ∧
      (processPaymentFromCustomerToMe envW dbPaidW).db = dbPaidW)
    ∧ ((∃ e, (processPayment envW cdbPaid).result = .error e) ∧
      (processPayment envW cdbPaid).calledGateway = false ∧
      (processPayment envW cdbPaid).db = cdbPaid) :=
  paid_bill_rejected_before_gateway envW envW dbPaidW cdbPaid ⟨250, "paid"⟩ ⟨250, "paid"⟩
    rfl rfl rfl rfl

theorem settleCapture_errors_in_table (env : SettleEnv) (db : SettleDB) (oid pid : String)
    (sr : ServiceRequestDoc) (bill : BillDoc) (order : OrderDoc) (e : HandlerErr)
    (h : (settleCapture env db oid pid sr bill order).result = .error e) :
    ∃ k, (k, e) ∈ errorKindTable := by
  cases hp : db.payment with
  | none =>
      simp [settleCapture, hp] at h
      subst h
      exact ⟨.notFound, by decide⟩
  | some p => simp [settleCapture, hp] at h

theorem settleOrder_errors_in_table (env : SettleEnv) (db : SettleDB) (oid pid : String)
    (sr : ServiceRequestDoc) (bill : BillDoc) (e : HandlerErr)
    (h : (settleOrder env db oid pid sr bill).result = .error e) :
    ∃ k, (k, e) ∈ errorKindTable := by
  cases hf : env.fetchOrder oid with
  | none =>
      simp [settleOrder, hf] at h
      subst h
      exact ⟨.upstreamGateway, by decide⟩
  | some order =>
      by_cases ha : order.amount = bill.amount * 100
      · simp only [settleOrder, hf, ha, ne_eq, not_true_eq_false, ite_false] at h
        exact settleCapture_errors_in_table env db oid pid sr bill order e h
      · simp [settleOrder, hf, ha] at h
        subst h
        exact ⟨.amountMismatch, by decide⟩

theorem settleSignature_errors_in_table (env : SettleEnv) (db : SettleDB)
    (oid pid sig : String) (sr : ServiceRequestDoc) (bill : BillDoc) (e : HandlerErr)
    (h : (settleSignature env db oid pid sig sr bill).result = .error e) :
    ∃ k, (k, e) ∈ errorKindTable := by
  by_cases hg : generatedSignature env oid pid = sig
  · simp only [settleSignature, hg, ne_eq, not_true_eq_false, ite_false] at h
    exact settleOrder_errors_in_table env db oid pid sr bill e h
  · simp [settleSignature, hg] at h
    subst h
    exact ⟨.signatureMismatch, by decide⟩

theorem settleDupCheck_errors_in_table (env : SettleEnv) (db : SettleDB)
    (oid pid sig : String) (sr : ServiceRequestDoc) (bill : BillDoc) (e : HandlerErr)
    (h : (settleDupCheck env db oid pid sig sr bill).result = .error e) :
    ∃ k, (k, e) ∈ errorKindTable := by
  cases hp : db.payment with
  | none =>
      simp only [settleDupCheck, hp] at h
      exact settleSignature_errors_in_table env db oid pid sig sr bill e h
  | some p =>
      by_cases hc : p.status = "captured"
      · simp [settleDupCheck, hp, hc] at h
        subst h
        exact ⟨.duplicateOperation, by decide⟩
      · by_cases hcr : p.status = "created"
        · simp only [settleDupCheck, hp, hc, hcr, ne_eq, ite_false, not_true_eq_false,
            if_false] at h
          exact settleSignature_errors_in_table env db oid pid sig sr bill e h
        · simp [settleDupCheck, hp, hc, hcr] at h
          subst h
          exact ⟨.invalidStateTransition, by decide⟩

theorem settleBillCheck_errors_in_table (env : SettleEnv) (db : SettleDB)
    (oid pid sig : String) (sr : ServiceRequestDoc) (e : HandlerErr)
    (h : (settleBillCheck env db oid pid sig sr).result = .error e) :
    ∃ k, (k, e) ∈ errorKindTable := by
  cases hb : db.bill with
  | none =>
      simp [settleBillCheck, hb] at h
      subst h
      exact ⟨.notFound, by decide⟩
  | some bill =>
      by_cases hs : bill.status = "paid"
      · simp [settleBillCheck, hb, hs] at h
        subst h
        exact ⟨.duplicateOperation, by decide⟩
      · simp only [settleBillCheck, hb, hs, ite_false] at h
        exact settleDupCheck_errors_in_table env db oid pid sig sr bill e h

/-- Every error raised by the settlement handler has an error kind. -/
theorem settle_errors_in_table (env : SettleEnv) (db : SettleDB) (e : HandlerErr)
    (h : (processPaymentFromCustomerToMe env db).result = .error e) :
    ∃ k, (k, e) ∈ errorKindTable := by
  cases ho : env.razorpay_order_id with
  | none =>
      simp [processPaymentFromCustomerToMe, ho] at h
      subst h
      exact ⟨.validation, by decide⟩
  | some oid =>
  cases hpd : env.razorpay_payment_id with
  | none =>
      simp [processPaymentFromCustomerToMe, ho, hpd] at h
      subst h
      exact ⟨.validation, by decide⟩
  | some pid =>
  cases hsg : env.razorpay_signature with
  | none =>
      simp [processPaymentFromCustomerToMe, ho, hpd, hsg] at h
      subst h
      exact ⟨.validation, by decide⟩
  | some sig =>
  cases hsr : db.serviceRequest with
  | none =>
      simp [processPaymentFromCustomerToMe, ho, hpd, hsg, hsr] at h
      subst h
      exact ⟨.authorization, by decide⟩
  | some sr =>
  by_cases hc : sr.customer = env.userId
  · simp only [processPaymentFromCustomerToMe, ho, hpd, hsg, hsr, hc, ne_eq,
      not_true_eq_false, ite_false] at h
    exact settleBillCheck_errors_in_table env db oid pid sig sr e h
  · simp [processPaymentFromCustomerToMe, ho, hpd, hsg, hsr, hc] at h
    subst h
    exact ⟨.authorization, by decide⟩

/-- Every error raised by the payout handler has an error kind. -/
theorem payout_errors_in_table (env : PayoutEnv) (db : PayoutDB) (e : HandlerErr)
    (h : (processPaymentFromMeToProvider env db).result = .error e) :
    ∃ k, (k, e) ∈ errorKindTable := by
  cases ht : db.transfer with
  | none =>
      simp [processPaymentFromMeToProvider, ht] at h
      subst h
      exact ⟨.notFound, by decide⟩
  | some t =>
  by_cases h1 : t.status = "captured"
  · simp [processPaymentFromMeToProvider, ht, h1] at h
    subst h
    exact ⟨.duplicateOperation, by decide⟩
  · by_cases h2 : t.status = "created"
    · cases hbd : db.bankDetails.find? (fun b => b.provider == t.provider) with
      | none =>
          simp [processPaymentFromMeToProvider, ht, h1, h2, hbd] at h
          subst h
          exact ⟨.validation, by decide⟩
      | some bd =>
          by_cases hv : bd.verification_status = "verified"
          · cases hft : env.transfersCreate
                ⟨t.amount, "INR", t.transfer_mode, "payout", bd.razorpay_fund_id⟩ with
            | none =>
                simp [processPaymentFromMeToProvider, ht, h1, h2, hbd, hv, hft] at h
                subst h
                exact ⟨.upstreamGateway, by decide⟩
            | some ft => simp [processPaymentFromMeToProvider, ht, h1, h2, hbd, hv, hft] at h
          · simp [processPaymentFromMeToProvider, ht, h1, h2, hbd, hv] at h
            subst h
            exact ⟨.validation, by decide⟩
    · simp [processPaymentFromMeToProvider, ht, h1, h2] at h
      subst h
      exact ⟨.invalidStateTransition, by decide⟩

/-- Every error raised by the legacy payment handler either has an error
kind in the table or is the internal exception from the unbound crypto
identifier. -/
theorem legacy_errors_in_table (env : SettleEnv) (db : CustomerPayDB) (e : HandlerErr)
    (h : (processPayment env db).result = .error e) :
    (∃ k, (k, e) ∈ errorKindTable) ∨ e = HandlerErr.internal := by
  cases ho : env.razorpay_order_id with
  | none =>
      simp [processPayment, ho] at h
      subst h
      exact .inl ⟨.validation, by decide⟩
  | some oid =>
  cases hpd : env.razorpay_payment_id with
  | none =>
      simp [processPayment, ho, hpd] at h
      subst h
      exact .inl ⟨.validation, by decide⟩
  | some pid =>
  cases hsg : env.razorpay_signature with
  | none =>
      simp [processPayment, ho, hpd, hsg] at h
      subst h
      exact .inl ⟨.validation, by decide⟩
  | some sig =>
  cases hsr : db.serviceRequest with
  | none =>
      simp [processPayment, ho, hpd, hsg, hsr] at h
      subst h
      exact .inl ⟨.notFound, by decide⟩
  | some sr =>
  by_cases hc : sr.customer = env.userId
  case neg =>
      simp [processPayment, ho, hpd, hsg, hsr, hc] at h
      subst h
      exact .inl ⟨.authorization, by decide⟩
  case pos =>
  cases hb : db.bill with
  | none =>
      simp [processPayment, ho, hpd, hsg, hsr, hc, hb] at h
      subst h
      exact .inl ⟨.notFound, by decide⟩
  | some bill =>
      simp [processPayment, ho, hpd, hsg, hsr, hc, hb] at h
      subst h
      exact .inr rfl

theorem pairwise_mem_rel {α : Type} {R : α → α → Prop}
    (hsym : ∀ a b, R a b → R b a) :
    ∀ l : List α, l.Pairwise R → ∀ a b, a ∈ l → b ∈ l → a ≠ b → R a b := by
  intro l
  induction l with
  | nil => intro _ a b ha; exact absurd ha (List.not_mem_nil a)
  | cons x xs ih =>
      intro hl a b ha hb hne
      rcases List.pairwise_cons.mp hl with ⟨hhead, htail⟩
      rcases List.mem_cons.mp ha with ha1 | ha2
      · rcases List.mem_cons.mp hb with hb1 | hb2
        · exact absurd (ha1.trans hb1.symm) hne
        · subst ha1; exact hhead b hb2
      · rcases List.mem_cons.mp hb with hb1 | hb2
        · subst hb1; exact hsym _ _ (hhead a ha2)
        · exact ih htail a b ha2 hb2 hne

/-- C9: every error raised by the settlement and payout handlers carries
one of the error kinds of the design; any two table entries of distinct
kinds surface distinct errors (distinct message and status pairs); the
legacy payment handler raises only table errors or the internal exception
from its unbound crypto identifier, and that exception coincides with no
table entry. -/
theorem error_kinds_distinct :
    (∀ env db e, (processPaymentFromCustomerToMe env db).result = .error e →
      ∃ k, (k, e) ∈ errorKindTable)
    ∧ (∀ env db e, (processPaymentFromMeToProvider env db).result = .error e →
      ∃ k, (k, e) ∈ errorKindTable)
    ∧ (∀ env db e, (processPayment env db).result = .error e →
      (∃ k, (k, e) ∈ errorKindTable) ∨ e = HandlerErr.internal)
    ∧ (∀ k1 e1 k2 e2, (k1, e1) ∈ errorKindTable → (k2, e2) ∈ errorKindTable →
      k1 ≠ k2 → e1 ≠ e2)
    ∧ (∀ a ∈ errorKindTable, a.2 ≠ HandlerErr.internal) := by
  refine ⟨settle_errors_in_table, payout_errors_in_table, legacy_errors_in_table, ?_,
    by decide⟩
  intro k1 e1 k2 e2 h1 h2 hk
  have hp : errorKindTable.Pairwise
      (fun a b : ErrorKind × HandlerErr => a.1 ≠ b.1 → a.2 ≠ b.2) := by decide
  refine pairwise_mem_rel ?_ errorKindTable hp (k1, e1) (k2, e2) h1 h2 ?_ hk
  · intro a b hab hba
    intro habs
    exact (hab (fun he => hba he.symm) habs.symm).elim
  · intro he
    exact hk (congrArg Prod.fst he)

/-- Witness for C9 at concrete entries: the signature-mismatch and
amount-mismatch kinds surface distinct errors. -/
theorem error_kinds_distinct_witness :
    HandlerErr.app invalidSignatureErr ≠ HandlerErr.app amountMismatchErr :=
  error_kinds_distinct.2.2.2.1 .signatureMismatch (.app invalidSignatureErr)
    .amountMismatch (.app amountMismatchErr) (by decide) (by decide) (by decide)

end LSPB
